import Mathlib

/-!
Verification development for the `claude-n8n-bridge` middleware
(`mcp-oauth-middleware.js`): a shallow embedding of its authentication
gate (`verifyToken` plus the inline credential checks) and of its
transport-bridge request handlers (`app.all(['/', '/mcp'])`,
`app.post('/mcp/messages')`, `app.all('/mcp/*')`), together with
theorems settling the specification claims about them.

Modelling conventions:
- Header maps are association lists with JavaScript-object semantics
  (case-sensitive keys; Express delivers inbound header names
  lowercased).
- JavaScript string `replace` with a string pattern (first occurrence
  only, identity when the pattern is absent) is embedded as
  `replaceFirst`.
- The `axios` HTTP client is an oracle `UpstreamRequest → UpstreamResult`;
  `axios` resolves with `.ok` and throws with `.httpError` (response
  available) or `.netError` (no response).
- The `jsonwebtoken` library is embedded by its documented contract:
  `decode` yields the unverified header and payload, and `verify` with
  an algorithm allow-list and expected issuer succeeds exactly when the
  header algorithm is in the list, the signature verifies under the
  supplied key, the issuer claim matches, and any `exp` claim has not
  lapsed.
-/

/-- Whether the pattern list occurs in `s`; on the first occurrence,
split `s` into the part before the pattern and the part after it.
This is the engine behind the embeddings of JavaScript
`String.prototype.includes` and (string-pattern) `replace`. -/
def splitFirst (pat : List Char) : List Char → Option (List Char × List Char)
  | [] => if pat.isPrefixOf ([] : List Char) then some ([], []) else none
  | c :: rest =>
    if pat.isPrefixOf (c :: rest) then some ([], (c :: rest).drop pat.length)
    else (splitFirst pat rest).map fun p => (c :: p.1, p.2)

/-- JavaScript `s.includes(pat)`. -/
def strContains (s pat : String) : Bool :=
  (splitFirst pat.toList s.toList).isSome

/-- JavaScript `s.replace(pat, rep)` with a string pattern: replace the
first occurrence of `pat`; if `pat` does not occur, return `s`
unchanged. -/
def replaceFirst (s pat rep : String) : String :=
  match splitFirst pat.toList s.toList with
  | none => s
  | some (a, b) => String.mk (a ++ rep.toList ++ b)

/-- JavaScript `s.startsWith(pre)` (computed on the character list, so
that concrete instances evaluate by reduction). -/
def strStartsWith (s pre : String) : Bool :=
  pre.toList.isPrefixOf s.toList

/-- JavaScript `s.substring(n)` (characters from index `n` on). -/
def strDrop (s : String) (n : Nat) : String :=
  String.mk (s.toList.drop n)

/-- JavaScript `a || b` on possibly-undefined strings (`none` is
`undefined`; the empty string is falsy). -/
def jsOr (a b : Option String) : Option String :=
  match a with
  | some s => if s = "" then b else some s
  | none => b

/-- JavaScript truthiness of a possibly-undefined string. -/
def optTruthy : Option String → Bool
  | some s => s ≠ ""
  | none => false

/-- JavaScript `n || d` on numbers (0 is falsy). -/
def jsOrNat (n d : Nat) : Nat :=
  if n = 0 then d else n

/-- JavaScript `a || b` on strings (empty string is falsy). -/
def jsOrStr (a b : String) : String :=
  if a = "" then b else a

/-- Interpolation of a possibly-undefined value into a template
literal: JavaScript renders `undefined` as the string `undefined`. -/
def jsTemplate : Option String → String
  | some s => s
  | none => "undefined"

/-- Lookup in a JavaScript-object header map (`headers[k]`). -/
def getHeader (hs : List (String × String)) (k : String) : Option String :=
  match hs.find? (fun p => p.1 == k) with
  | some p => some p.2
  | none => none

/-- JavaScript object property assignment / spread-override
(`headers[k] = v`): overwrite the entry if the key is present,
otherwise append it. -/
def setHeader (hs : List (String × String)) (k v : String) : List (String × String) :=
  if (hs.find? (fun p => p.1 == k)).isSome then
    hs.map (fun p => if p.1 == k then (k, v) else p)
  else
    hs ++ [(k, v)]

/-- JavaScript `delete headers[k]`. -/
def removeHeader (hs : List (String × String)) (k : String) : List (String × String) :=
  hs.filter (fun p => !(p.1 == k))

/-- `new URL(u).protocol` for an absolute URL: the scheme up to and
including the first colon. -/
def urlProtocol (u : String) : String :=
  match splitFirst ":".toList u.toList with
  | some (a, _) => String.mk (a ++ [':'])
  | none => ""

/-- `new URL(u).host` for an absolute `http(s)` URL: the authority
(including any port) between the `//` and the next `/`, `?` or `#`. -/
def urlHost (u : String) : String :=
  match splitFirst "//".toList u.toList with
  | some (_, rest) => String.mk (rest.takeWhile (fun c => !(c == '/' || c == '?' || c == '#')))
  | none => ""

/-- `req.url.includes('?') ? req.url.substring(req.url.indexOf('?')) : ''`:
the query-string suffix of a request URL, question mark included. -/
def querySuffix (url : String) : String :=
  match splitFirst "?".toList url.toList with
  | some (_, rest) => String.mk ('?' :: rest)
  | none => ""

/-- The claim set of a decoded JWT payload (`iss`, `sub`,
`preferred_username`, optional `exp`, in seconds since the epoch). -/
structure TokenClaims where
  iss : String
  sub : String
  preferred_username : Option String
  exp : Option Nat
deriving DecidableEq

/-- The result of `jwt.decode(token, complete: true)`: the unverified
header fields and payload. `sigValid` abstracts the cryptographic fact
that the token signature verifies under the key that the JWKS client
resolves for `kid`. -/
structure DecodedJwt where
  alg : String
  kid : String
  payload : TokenClaims
  sigValid : Bool
deriving DecidableEq

/-- The ambient JWT world: `decode` is `jwt.decode` (returns `none` on
a malformed credential), `resolveKey` is the JWKS signing-key lookup
(`client.getSigningKey`, `none` when the key identifier cannot be
resolved or the key-set endpoint fails), `now` is the verification
clock in seconds since the epoch. -/
structure JwtEnv where
  decode : String → Option DecodedJwt
  resolveKey : String → Option String
  now : Nat

/-- `jsonwebtoken`'s expiry rule: a token with an `exp` claim is valid
strictly before `exp`; a token without one is not expiry-checked. -/
def expNotLapsed (now : Nat) : Option Nat → Bool
  | some e => now < e
  | none => true

/-- The middleware configuration (`config` in the source, plus the two
environment variables read directly at request time). Fields other
than `disableAuth` and `apiKey` hold the values after the source's
`process.env.X || default` defaulting. -/
structure Config where
  disableAuth : Option String
  apiKey : Option String
  keycloakRealm : String
  keycloakServerUrl : String
  mcpUrl : String
  bearerToken : String
deriving DecidableEq

/-- The configuration produced by the source's defaults when no
environment variables are set. -/
def defaultConfig : Config :=
  { disableAuth := none
    apiKey := none
    keycloakRealm := "mcp"
    keycloakServerUrl := "https://auth.my-domain.com:8080"
    mcpUrl := "https://n8n.my-domain.com/webhook/mcp/YOUR_WEBHOOK_ID"
    bearerToken := "" }

/-- The issuer string `verifyToken` expects:
`config.keycloak.serverUrl + /realms/ + config.keycloak.realm`. -/
def expectedIssuer (cfg : Config) : String :=
  cfg.keycloakServerUrl ++ "/realms/" ++ cfg.keycloakRealm

/-- `verifyToken` from the source: decode without verifying, resolve
the signing key for the header `kid`, then `jwt.verify` with
`algorithms: [RS256]` and the expected issuer; any thrown error is
caught and surfaced as `null` (`none`). On success the full verified
payload is returned. -/
def verifyToken (cfg : Config) (env : JwtEnv) (token : String) : Option TokenClaims :=
  match env.decode token with
  | none => none
  | some d =>
    match env.resolveKey d.kid with
    | none => none
    | some _ =>
      if d.alg = "RS256" ∧ d.sigValid = true ∧ d.payload.iss = expectedIssuer cfg ∧
          expNotLapsed env.now d.payload.exp = true then
        some d.payload
      else none

/-- `process.env.API_KEY || your-secret-api-key`. -/
def expectedApiKey (cfg : Config) : String :=
  match cfg.apiKey with
  | some s => jsOrStr s "your-secret-api-key"
  | none => "your-secret-api-key"

/-- An inbound Express request, restricted to the fields the handlers
read. `headers` carries the header names as Express stores them
(lowercased); `queryApiKey` and `querySessionId` are
`req.query.api_key` and `req.query.sessionId`; `url` is `req.url`
(path plus query string) and `path` is `req.path`; `body` is the
parsed JSON body as forwarded, `bodyId` is `req.body?.id`. -/
structure Request where
  method : String
  path : String
  url : String
  headers : List (String × String)
  queryApiKey : Option String
  querySessionId : Option String
  body : Option String
  bodyId : Option String
deriving DecidableEq

/-- The admission decision of the inline authentication gate on the
primary endpoint. -/
inductive AuthDecision where
  | admitBypass
  | admitToken (claims : TokenClaims)
  | admitApiKey
  | denyInvalidToken
  | denyUnauthorized
deriving DecidableEq

/-- The authentication gate of `app.all(['/', '/mcp'])`: bypass when
`DISABLE_AUTH` is exactly `true`; otherwise a `Bearer `-prefixed
Authorization header is validated with `verifyToken` (failure denies
with `invalid_token`); otherwise the shared secret from the
`x-api-key` header or the `api_key` query parameter must equal the
configured secret (else deny `unauthorized`). -/
def presentedApiKey (req : Request) : Option String :=
  jsOr (getHeader req.headers "x-api-key") req.queryApiKey

/-- The gate decision itself (see the preceding comment): the shared
secret read by `presentedApiKey` corresponds to the source line
`const apiKey = req.headers [x-api-key] or req.query.api_key`. -/
def authorize (cfg : Config) (env : JwtEnv) (req : Request) : AuthDecision :=
  if cfg.disableAuth = some "true" then .admitBypass
  else
    match getHeader req.headers "authorization" with
    | some ah =>
      if strStartsWith ah "Bearer " then
        match verifyToken cfg env (strDrop ah 7) with
        | some c => .admitToken c
        | none => .denyInvalidToken
      else if presentedApiKey req = some (expectedApiKey cfg) then .admitApiKey
      else .denyUnauthorized
    | none =>
      if presentedApiKey req = some (expectedApiKey cfg) then .admitApiKey
      else .denyUnauthorized

/-- An upstream (`axios`) request as the bridge constructs it. -/
structure UpstreamRequest where
  method : String
  url : String
  headers : List (String × String)
  data : Option String
  responseType : String
deriving DecidableEq

/-- The outcome of an `axios` call: `ok` when the promise resolves
(carrying the response status, content type and body), `httpError`
when it rejects with a response attached (`error.response`), and
`netError` when it rejects without one. -/
inductive UpstreamResult where
  | ok (status : Nat) (contentType : Option String) (data : String)
  | httpError (status : Nat) (data : String) (message : String)
  | netError (message : String)
deriving DecidableEq

/-- The response body shapes the handlers produce. Each constructor
stands for the exact JSON (or stream) the source writes:
`authError e d` is the object with fields `error` = e and
`error_description` = d; `methodNotAllowedSse` is the object with
`error` = `method_not_allowed` and `message` =
`Use GET for SSE connection`; `methodNotAllowedPlain` is the object
with `error` = `Method not allowed`; `rpcInternalError d i` is the
JSON-RPC 2.0 envelope with code -32603, message `Internal error`,
`data` = d and `id` = i (or null); `upstreamData` is the buffered
upstream body relayed verbatim by `res.json`; `proxyError e` is the
object with field `error` = e; `sseStream` is a live relay of the
upstream stream; `emptyBody` is `res.end()` with no body;
`notFound` is the catch-all object listing the known endpoints. -/
inductive BodyJson where
  | authError (error : String) (errorDescription : String)
  | methodNotAllowedSse
  | methodNotAllowedPlain
  | rpcInternalError (data : String) (id : Option String)
  | upstreamData (data : String)
  | proxyError (data : String)
  | sseStream (data : String)
  | emptyBody
  | notFound
deriving DecidableEq

/-- A response to the client: status code, optional `WWW-Authenticate`
header, and body. -/
structure Response where
  status : Nat
  wwwAuthenticate : Option String
  body : BodyJson
deriving DecidableEq

/-- The challenge header set on an invalid-token denial. -/
def invalidTokenChallenge : String :=
  "Bearer realm=\"MCP\", error=\"invalid_token\", error_description=\"Token invalid or expired\""

/-- The bare challenge header set on a missing-credentials denial. -/
def realmChallenge : String := "Bearer realm=\"MCP\""

/-- The 401 response for a bearer credential that failed validation. -/
def invalidTokenResponse : Response :=
  { status := 401
    wwwAuthenticate := some invalidTokenChallenge
    body := .authError "invalid_token" "Token validation failed" }

/-- The 401 response for a request with no valid credential at all. -/
def unauthorizedResponse : Response :=
  { status := 401
    wwwAuthenticate := some realmChallenge
    body := .authError "unauthorized" "Missing or invalid authorization. Use Bearer token or API key." }

/-- The 405 transport-fallback response (`method_not_allowed`,
`Use GET for SSE connection`). -/
def sseFallbackResponse : Response :=
  { status := 405, wwwAuthenticate := none, body := .methodNotAllowedSse }

/-- `if (config.n8n.bearerToken) headers[Authorization] = Bearer ...`. -/
def addBearer (cfg : Config) (hs : List (String × String)) : List (String × String) :=
  if cfg.bearerToken ≠ "" then setHeader hs "Authorization" ("Bearer " ++ cfg.bearerToken)
  else hs

/-- Whether the request's Accept header includes `text/event-stream`
(`req.headers.accept && req.headers.accept.includes(...)`, also the
optional-chained form `req.headers.accept?.includes(...)`). -/
def acceptIncludesES (req : Request) : Bool :=
  match getHeader req.headers "accept" with
  | some a => strContains a "text/event-stream"
  | none => false

/-- Whether an upstream content-type indicates a stream
(`response.headers[content-type]?.includes(text/event-stream)`). -/
def optContainsES : Option String → Bool
  | some c => strContains c "text/event-stream"
  | none => false

/-- The upstream request of the primary endpoint's SSE (GET) branch. -/
def mcpSseUpstreamReq (cfg : Config) : UpstreamRequest :=
  { method := "GET"
    url := cfg.mcpUrl
    headers := addBearer cfg [("Accept", "text/event-stream")]
    data := none
    responseType := "stream" }

/-- The target URL of the primary endpoint's POST branch: when a
truthy `sessionId` is present, the first occurrence of `/sse` in the
configured backend URL is textually replaced by
`/messages?sessionId=<sid>`; otherwise the URL is unchanged. -/
def mcpPostUrl (cfg : Config) (sessionId : Option String) : String :=
  if optTruthy sessionId = true then
    replaceFirst cfg.mcpUrl "/sse" ("/messages?sessionId=" ++ jsTemplate sessionId)
  else cfg.mcpUrl

/-- The upstream headers of the primary endpoint's POST branch. -/
def mcpPostHeaders (cfg : Config) (acceptsES : Bool) : List (String × String) :=
  addBearer cfg
    (if acceptsES then setHeader [("Content-Type", "application/json")] "Accept" "text/event-stream"
     else [("Content-Type", "application/json")])

/-- The upstream request of the primary endpoint's POST branch. -/
def mcpPostUpstreamReq (cfg : Config) (req : Request) : UpstreamRequest :=
  { method := "POST"
    url := mcpPostUrl cfg req.querySessionId
    headers := mcpPostHeaders cfg (acceptIncludesES req)
    data := req.body
    responseType := if acceptIncludesES req then "stream" else "json" }

/-- The relay of the primary endpoint's SSE (GET) branch: a resolved
upstream stream is piped with status 200; on any failure the response
is a bodyless 500 (`res.status(500).end()`). -/
def mcpSseRespond : UpstreamResult → Response
  | .ok _ _ data => { status := 200, wwwAuthenticate := none, body := .sseStream data }
  | .httpError _ _ _ => { status := 500, wwwAuthenticate := none, body := .emptyBody }
  | .netError _ => { status := 500, wwwAuthenticate := none, body := .emptyBody }

/-- The relay of the primary endpoint's POST branch: a resolved
response is streamed (status 200) when the client accepts the
streaming media type and the upstream content type is a stream, and
otherwise buffered via `res.json` (status 200); a rejection with
status 404 on a request whose Accept header includes the streaming
media type is remapped to the 405 transport fallback, and any other
failure becomes a 500 JSON-RPC internal-error envelope. -/
def mcpPostRespond (req : Request) : UpstreamResult → Response
  | .ok _ ct data =>
    if acceptIncludesES req = true ∧ optContainsES ct = true then
      { status := 200, wwwAuthenticate := none, body := .sseStream data }
    else
      { status := 200, wwwAuthenticate := none, body := .upstreamData data }
  | .httpError st _ msg =>
    if st = 404 ∧ acceptIncludesES req = true then sseFallbackResponse
    else { status := 500, wwwAuthenticate := none, body := .rpcInternalError msg req.bodyId }
  | .netError msg =>
    { status := 500, wwwAuthenticate := none, body := .rpcInternalError msg req.bodyId }

/-- The transport-bridge part of `app.all(['/', '/mcp'])`, i.e. the
code the source runs after the authentication block admits the
request. Returns the client response and the upstream call made, if
any. -/
def handleMcpCore (cfg : Config) (up : UpstreamRequest → UpstreamResult)
    (req : Request) : Response × Option UpstreamRequest :=
  if req.method = "GET" ∧ getHeader req.headers "accept" = some "text/event-stream" then
    (mcpSseRespond (up (mcpSseUpstreamReq cfg)), some (mcpSseUpstreamReq cfg))
  else if req.method = "POST" then
    if acceptIncludesES req = true ∧ optTruthy req.querySessionId = false then
      (sseFallbackResponse, none)
    else
      (mcpPostRespond req (up (mcpPostUpstreamReq cfg req)),
        some (mcpPostUpstreamReq cfg req))
  else
    ({ status := 405, wwwAuthenticate := none, body := .methodNotAllowedPlain }, none)

/-- `app.all(['/', '/mcp'])`: the gate, then the transport bridge.
A denied request is answered directly and never reaches the bridge. -/
def handleMcp (cfg : Config) (env : JwtEnv) (up : UpstreamRequest → UpstreamResult)
    (req : Request) : Response × Option UpstreamRequest :=
  match authorize cfg env req with
  | .denyInvalidToken => (invalidTokenResponse, none)
  | .denyUnauthorized => (unauthorizedResponse, none)
  | _ => handleMcpCore cfg up req

/-- The upstream request of `app.post('/mcp/messages')`: the backend
URL with `/sse` replaced by `/messages?sessionId=<sid>` (an absent
`sessionId` interpolates as the text `undefined`), JSON content type,
optional backend bearer token, default (buffered JSON) response. -/
def mcpMessagesUpstreamReq (cfg : Config) (req : Request) : UpstreamRequest :=
  { method := "POST"
    url := replaceFirst cfg.mcpUrl "/sse"
      ("/messages?sessionId=" ++ jsTemplate req.querySessionId)
    headers := addBearer cfg [("Content-Type", "application/json")]
    data := req.body
    responseType := "json" }

/-- The relay of `app.post('/mcp/messages')`: the buffered JSON body
on success, and a 500 JSON-RPC internal-error envelope on any
failure. -/
def mcpMessagesRespond (req : Request) : UpstreamResult → Response
  | .ok _ _ data => { status := 200, wwwAuthenticate := none, body := .upstreamData data }
  | .httpError _ _ msg =>
    { status := 500, wwwAuthenticate := none, body := .rpcInternalError msg req.bodyId }
  | .netError msg =>
    { status := 500, wwwAuthenticate := none, body := .rpcInternalError msg req.bodyId }

/-- `app.post('/mcp/messages')`: forwards to the backend messages URL
with no authentication check. -/
def handleMcpMessages (cfg : Config) (up : UpstreamRequest → UpstreamResult)
    (req : Request) : Response × Option UpstreamRequest :=
  (mcpMessagesRespond req (up (mcpMessagesUpstreamReq cfg req)),
    some (mcpMessagesUpstreamReq cfg req))

/-- The target URL of `app.all('/mcp/*')`: backend scheme and host,
then `/mcp` plus the request path with its first `/mcp` removed, then
the original query-string suffix. -/
def mcpStarUrl (cfg : Config) (req : Request) : String :=
  urlProtocol cfg.mcpUrl ++ "//" ++ urlHost cfg.mcpUrl ++ "/mcp" ++
    replaceFirst req.path "/mcp" "" ++ querySuffix req.url

/-- The upstream headers of `app.all('/mcp/*')`: all inbound headers
spread, `host` overridden to the backend host, `content-length`
deleted, and the backend bearer token injected when configured. -/
def mcpStarHeaders (cfg : Config) (req : Request) : List (String × String) :=
  addBearer cfg
    (removeHeader (setHeader req.headers "host" (urlHost cfg.mcpUrl)) "content-length")

/-- The upstream request of `app.all('/mcp/*')`. -/
def mcpStarUpstreamReq (cfg : Config) (req : Request) : UpstreamRequest :=
  { method := req.method
    url := mcpStarUrl cfg req
    headers := mcpStarHeaders cfg req
    data := req.body
    responseType :=
      if getHeader req.headers "accept" = some "text/event-stream" then "stream" else "json" }

/-- The relay of `app.all('/mcp/*')`: on success the body is streamed
(status 200) when the Accept header is exactly the streaming media
type and otherwise buffered with the upstream status preserved; on a
rejection the upstream status (or 500) and the upstream error body
(or the error message) are returned. -/
def mcpStarRespond (req : Request) : UpstreamResult → Response
  | .ok st _ data =>
    if getHeader req.headers "accept" = some "text/event-stream" then
      { status := 200, wwwAuthenticate := none, body := .sseStream data }
    else
      { status := st, wwwAuthenticate := none, body := .upstreamData data }
  | .httpError st data msg =>
    { status := jsOrNat st 500, wwwAuthenticate := none,
      body := .proxyError (jsOrStr data msg) }
  | .netError msg =>
    { status := 500, wwwAuthenticate := none, body := .proxyError msg }

/-- `app.all('/mcp/*')`: forwards with no authentication check. -/
def handleMcpStar (cfg : Config) (up : UpstreamRequest → UpstreamResult)
    (req : Request) : Response × Option UpstreamRequest :=
  (mcpStarRespond req (up (mcpStarUpstreamReq cfg req)),
    some (mcpStarUpstreamReq cfg req))

/-- The paths handled by the endpoints the specification excludes from
the core (discovery documents, stub registration, diagnostics). -/
def isExcludedPath (req : Request) : Bool :=
  req.path = "/.well-known/oauth-authorization-server" ||
  req.path = "/.well-known/oauth-authorization-server/mcp" ||
  req.path = "/.well-known/openid-configuration" ||
  req.path = "/.well-known/oauth-protected-resource" ||
  (req.method = "POST" && req.path = "/oauth/register") ||
  (req.method = "GET" && (req.path = "/health" || req.path = "/test"))

/-- The Express routing of the protocol endpoints, in source order
(paths taken in canonical form, without trailing slashes): the primary
endpoint at `/` and `/mcp`, then `POST /mcp/messages`, then
`ALL /mcp/*`, then the catch-all 404. Requests to the excluded
endpoints yield `none`. -/
def dispatch (cfg : Config) (env : JwtEnv) (up : UpstreamRequest → UpstreamResult)
    (req : Request) : Option (Response × Option UpstreamRequest) :=
  if isExcludedPath req = true then none
  else if req.path = "/" ∨ req.path = "/mcp" then some (handleMcp cfg env up req)
  else if req.method = "POST" ∧ req.path = "/mcp/messages" then
    some (handleMcpMessages cfg up req)
  else if strStartsWith req.path "/mcp/" then some (handleMcpStar cfg up req)
  else some ({ status := 404, wwwAuthenticate := none, body := .notFound }, none)

/-- A JWT world in which no credential decodes: every bearer token is
malformed and no signing key resolves. -/
def nullJwtEnv : JwtEnv :=
  { decode := fun _ => none
    resolveKey := fun _ => none
    now := 0 }

/-- An upstream oracle whose every call resolves with a 200 buffered
JSON response. -/
def okUpstream : UpstreamRequest → UpstreamResult :=
  fun _ => .ok 200 (some "application/json") "backend-response"

/-- An upstream oracle whose every call rejects with HTTP 404. -/
def upstream404 : UpstreamRequest → UpstreamResult :=
  fun _ => .httpError 404 "" "Request failed with status code 404"

/-- The default configuration with `DISABLE_AUTH=true`. -/
def bypassConfig : Config :=
  { defaultConfig with disableAuth := some "true" }

/-- A bypass configuration whose backend URL is in streaming-endpoint
(`/sse`) form. -/
def sseBypassConfig : Config :=
  { bypassConfig with mcpUrl := "https://n8n.example.com/mcp/sse" }

/-- An unauthenticated POST to `/mcp/messages` carrying a session
identifier. -/
def c1MessagesReq : Request :=
  { method := "POST", path := "/mcp/messages", url := "/mcp/messages?sessionId=abc"
    headers := [], queryApiKey := none, querySessionId := some "abc"
    body := some "rpc-call", bodyId := some "1" }

/-- An unauthenticated GET to a sub-path under `/mcp/`. -/
def c1StarReq : Request :=
  { method := "GET", path := "/mcp/tools", url := "/mcp/tools"
    headers := [], queryApiKey := none, querySessionId := none
    body := none, bodyId := none }

/-- A sub-path call whose Accept header is the streaming media type. -/
def c2StarReq : Request :=
  { method := "POST", path := "/mcp/s1/messages", url := "/mcp/s1/messages"
    headers := [("accept", "text/event-stream")]
    queryApiKey := none, querySessionId := none
    body := some "rpc-call", bodyId := none }

/-- A Call-With-Session POST to the primary endpoint with a streaming
Accept header. -/
def c2PrimaryReq : Request :=
  { method := "POST", path := "/mcp", url := "/mcp?sessionId=s1"
    headers := [("accept", "text/event-stream")]
    queryApiKey := none, querySessionId := some "s1"
    body := some "rpc-call", bodyId := none }

/-- A primary-endpoint request carrying a bearer credential. -/
def c4TokenReq : Request :=
  { method := "POST", path := "/mcp", url := "/mcp"
    headers := [("authorization", "Bearer bad-token")]
    queryApiKey := none, querySessionId := none
    body := some "rpc-call", bodyId := none }

/-- A primary-endpoint request with no credential at all. -/
def c4NoCredReq : Request :=
  { method := "POST", path := "/mcp", url := "/mcp"
    headers := [], queryApiKey := none, querySessionId := none
    body := some "rpc-call", bodyId := none }

/-- A primary-endpoint POST with a streaming Accept header and no
session identifier (the initialization probe). -/
def c5Req : Request :=
  { method := "POST", path := "/mcp", url := "/mcp"
    headers := [("accept", "text/event-stream")]
    queryApiKey := none, querySessionId := none
    body := some "initialize-call", bodyId := some "0" }

/-- A primary-endpoint POST carrying a session identifier and a
non-streaming Accept. -/
def c6Req : Request :=
  { method := "POST", path := "/mcp", url := "/mcp?sessionId=abc"
    headers := [], queryApiKey := none, querySessionId := some "abc"
    body := some "rpc-call", bodyId := some "2" }

/-- A primary-endpoint request presenting the matching shared secret in
the dedicated header. -/
def c7GoodReq : Request :=
  { method := "POST", path := "/mcp", url := "/mcp"
    headers := [("x-api-key", "your-secret-api-key")]
    queryApiKey := none, querySessionId := none
    body := none, bodyId := none }

/-- A primary-endpoint request presenting a non-matching shared secret
in the query parameter. -/
def c7BadReq : Request :=
  { method := "POST", path := "/mcp", url := "/mcp?api_key=wrong"
    headers := [], queryApiKey := some "wrong", querySessionId := none
    body := none, bodyId := none }

/-- A configuration with a backend bearer token, for the sub-path
header-forwarding claim. -/
def c8Config : Config :=
  { defaultConfig with bearerToken := "n8ntok" }

/-- A sub-path call with a custom header, a content-length, a client
host header and a non-streaming Accept. -/
def c8Req : Request :=
  { method := "GET", path := "/mcp/tools/x", url := "/mcp/tools/x?y=1"
    headers := [("accept", "application/json"), ("content-length", "42"),
      ("x-custom", "1"), ("host", "client.example")]
    queryApiKey := none, querySessionId := none
    body := none, bodyId := none }

/-- An upstream oracle answering with a distinctive 207 status, to
exhibit status preservation on the buffered sub-path path. -/
def c8Up : UpstreamRequest → UpstreamResult :=
  fun _ => .ok 207 (some "application/json") "subpath-response"

theorem splitFirst_eq_append (pat : List Char) :
    ∀ s a b : List Char, splitFirst pat s = some (a, b) → s = a ++ pat ++ b := by
  intro s
  induction s with
  | nil =>
    intro a b h
    by_cases hp : pat.isPrefixOf ([] : List Char)
    · have hpat : pat = [] := List.prefix_nil.mp (List.isPrefixOf_iff_prefix.mp hp)
      subst hpat
      simp [splitFirst] at h
      obtain ⟨ha, hb⟩ := h
      subst ha; subst hb; rfl
    · simp [splitFirst, hp] at h
  | cons c rest ih =>
    intro a b h
    by_cases hp : pat.isPrefixOf (c :: rest)
    · obtain ⟨t, ht⟩ := List.isPrefixOf_iff_prefix.mp hp
      simp [splitFirst, hp] at h
      obtain ⟨ha, hb⟩ := h
      subst ha
      rw [← ht, ← hb, ← ht]
      simp [List.drop_left]
    · rw [show splitFirst pat (c :: rest) =
          (splitFirst pat rest).map (fun p => (c :: p.1, p.2)) by
            simp [splitFirst, hp]] at h
      rw [Option.map_eq_some'] at h
      obtain ⟨p, hsplit, hmap⟩ := h
      obtain ⟨a', b'⟩ := p
      rw [Prod.mk.injEq] at hmap
      obtain ⟨ha, hb⟩ := hmap
      subst ha; subst hb
      have hres := ih a' b' hsplit
      rw [hres]
      simp

theorem splitFirst_append_self (pat t : List Char) :
    splitFirst pat (pat ++ t) = some ([], t) := by
  cases h : pat ++ t with
  | nil =>
    obtain ⟨hp, ht⟩ := List.append_eq_nil.mp h
    subst hp; subst ht
    simp [splitFirst]
  | cons c rest =>
    have hp : pat.isPrefixOf (c :: rest) = true := by
      rw [← h]
      exact List.isPrefixOf_iff_prefix.mpr ⟨t, rfl⟩
    simp only [splitFirst, hp, if_true]
    rw [← h, List.drop_left]

theorem replaceFirst_of_not_contains (s pat rep : String)
    (h : strContains s pat = false) : replaceFirst s pat rep = s := by
  unfold strContains at h
  unfold replaceFirst
  cases hs : splitFirst pat.toList s.toList with
  | none => rfl
  | some p => rw [hs] at h; simp at h

theorem replaceFirst_decomp (s pat rep : String) (h : strContains s pat = true) :
    ∃ a b : List Char, s.data = a ++ pat.data ++ b ∧
      (replaceFirst s pat rep).data = a ++ rep.data ++ b := by
  unfold strContains at h
  cases hs : splitFirst pat.toList s.toList with
  | none => rw [hs] at h; simp at h
  | some p =>
    obtain ⟨a, b⟩ := p
    refine ⟨a, b, splitFirst_eq_append pat.toList s.toList a b hs, ?_⟩
    unfold replaceFirst
    rw [hs]
    rfl

theorem replaceFirst_prefix_erase (p r : String) :
    replaceFirst (p ++ r) p "" = r := by
  unfold replaceFirst
  have h : splitFirst p.toList (p ++ r).toList = some ([], r.toList) := by
    show splitFirst p.data (p ++ r).data = some ([], r.data)
    rw [String.data_append]
    exact splitFirst_append_self p.data r.data
  rw [h]
  rfl

theorem getHeader_cons_self (q : String × String) (hs : List (String × String)) (k : String)
    (h : q.1 = k) : getHeader (q :: hs) k = some q.2 := by
  unfold getHeader
  rw [@List.find?_cons_of_pos _ (fun p => p.1 == k) q hs (beq_iff_eq.mpr h)]

theorem getHeader_cons_other (q : String × String) (hs : List (String × String)) (k : String)
    (h : ¬ q.1 = k) : getHeader (q :: hs) k = getHeader hs k := by
  unfold getHeader
  rw [@List.find?_cons_of_neg _ (fun p => p.1 == k) q hs (by simp [h])]

theorem find?_key_cons_other (q : String × String) (hs : List (String × String)) (k : String)
    (h : ¬ q.1 = k) :
    (q :: hs).find? (fun p => p.1 == k) = hs.find? (fun p => p.1 == k) :=
  @List.find?_cons_of_neg _ (fun p => p.1 == k) q hs (by simp [h])

theorem getHeader_map_set_found (k v : String) :
    ∀ (hs : List (String × String)) (w : String × String),
      hs.find? (fun p => p.1 == k) = some w →
      getHeader (hs.map (fun p => if p.1 == k then (k, v) else p)) k = some v := by
  intro hs
  induction hs with
  | nil => intro w h; exact absurd h (by simp)
  | cons q rest ih =>
    intro w h
    rw [List.map_cons]
    by_cases hq : q.1 = k
    · have hhead : (if q.1 == k then (k, v) else q) = (k, v) := if_pos (beq_iff_eq.mpr hq)
      rw [hhead, getHeader_cons_self (k, v) _ k rfl]
    · have hhead : (if q.1 == k then (k, v) else q) = q := by
        rw [if_neg]
        simp [hq]
      rw [hhead, getHeader_cons_other q _ k hq]
      rw [find?_key_cons_other q rest k hq] at h
      exact ih w h

theorem getHeader_map_set_other (k v k' : String) (hne : k' ≠ k) :
    ∀ hs : List (String × String),
      getHeader (hs.map (fun p => if p.1 == k then (k, v) else p)) k' = getHeader hs k' := by
  intro hs
  induction hs with
  | nil => rfl
  | cons q rest ih =>
    rw [List.map_cons]
    by_cases hq : q.1 = k
    · have hhead : (if q.1 == k then (k, v) else q) = (k, v) := if_pos (beq_iff_eq.mpr hq)
      have hq' : ¬ q.1 = k' := by rw [hq]; exact fun hc => hne hc.symm
      rw [hhead, getHeader_cons_other (k, v) _ k' (fun hc => hne hc.symm),
        getHeader_cons_other q rest k' hq', ih]
    · have hhead : (if q.1 == k then (k, v) else q) = q := by
        rw [if_neg]
        simp [hq]
      by_cases hq' : q.1 = k'
      · rw [hhead, getHeader_cons_self q _ k' hq', getHeader_cons_self q rest k' hq']
      · rw [hhead, getHeader_cons_other q _ k' hq', getHeader_cons_other q rest k' hq', ih]

theorem getHeader_append_single_self (k v : String) :
    ∀ hs : List (String × String),
      hs.find? (fun p => p.1 == k) = none →
      getHeader (hs ++ [(k, v)]) k = some v := by
  intro hs
  induction hs with
  | nil =>
    intro _
    rw [List.nil_append]
    exact getHeader_cons_self (k, v) [] k rfl
  | cons q rest ih =>
    intro h
    by_cases hq : q.1 = k
    · exfalso
      rw [@List.find?_cons_of_pos _ (fun p => p.1 == k) q rest (beq_iff_eq.mpr hq)] at h
      exact Option.noConfusion h
    · rw [List.cons_append, getHeader_cons_other q _ k hq]
      rw [find?_key_cons_other q rest k hq] at h
      exact ih h

theorem getHeader_append_single_other (k v k' : String) (hne : k' ≠ k) :
    ∀ hs : List (String × String),
      getHeader (hs ++ [(k, v)]) k' = getHeader hs k' := by
  intro hs
  induction hs with
  | nil =>
    rw [List.nil_append, getHeader_cons_other (k, v) [] k' (fun hc => hne hc.symm)]
  | cons q rest ih =>
    by_cases hq : q.1 = k'
    · rw [List.cons_append, getHeader_cons_self q _ k' hq, getHeader_cons_self q rest k' hq]
    · rw [List.cons_append, getHeader_cons_other q _ k' hq, getHeader_cons_other q rest k' hq, ih]

theorem getHeader_setHeader_self (hs : List (String × String)) (k v : String) :
    getHeader (setHeader hs k v) k = some v := by
  unfold setHeader
  cases hf : hs.find? (fun p => p.1 == k) with
  | some w =>
    rw [if_pos (show (some w).isSome = true from rfl)]
    exact getHeader_map_set_found k v hs w hf
  | none =>
    rw [if_neg (by simp)]
    exact getHeader_append_single_self k v hs hf

theorem getHeader_setHeader_other (hs : List (String × String)) (k v k' : String)
    (hne : k' ≠ k) : getHeader (setHeader hs k v) k' = getHeader hs k' := by
  unfold setHeader
  cases hf : hs.find? (fun p => p.1 == k) with
  | some w =>
    rw [if_pos (show (some w).isSome = true from rfl)]
    exact getHeader_map_set_other k v k' hne hs
  | none =>
    rw [if_neg (by simp)]
    exact getHeader_append_single_other k v k' hne hs

theorem getHeader_removeHeader_self (k : String) :
    ∀ hs : List (String × String), getHeader (removeHeader hs k) k = none := by
  intro hs
  induction hs with
  | nil => rfl
  | cons q rest ih =>
    unfold removeHeader at ih ⊢
    by_cases hq : q.1 = k
    · have hfilter : List.filter (fun p => !(p.1 == k)) (q :: rest) =
          List.filter (fun p => !(p.1 == k)) rest := by
        rw [List.filter_cons, if_neg]
        simp [hq]
      rw [hfilter]
      exact ih
    · have hfilter : List.filter (fun p => !(p.1 == k)) (q :: rest) =
          q :: List.filter (fun p => !(p.1 == k)) rest := by
        rw [List.filter_cons, if_pos]
        simp [hq]
      rw [hfilter, getHeader_cons_other q _ k hq]
      exact ih

theorem getHeader_removeHeader_other (k k' : String) (hne : k' ≠ k) :
    ∀ hs : List (String × String),
      getHeader (removeHeader hs k) k' = getHeader hs k' := by
  intro hs
  induction hs with
  | nil => rfl
  | cons q rest ih =>
    unfold removeHeader at ih ⊢
    by_cases hq : q.1 = k
    · have hq' : ¬ q.1 = k' := by rw [hq]; exact fun hc => hne hc.symm
      have hfilter : List.filter (fun p => !(p.1 == k)) (q :: rest) =
          List.filter (fun p => !(p.1 == k)) rest := by
        rw [List.filter_cons, if_neg]
        simp [hq]
      rw [hfilter, ih, getHeader_cons_other q rest k' hq']
    · have hfilter : List.filter (fun p => !(p.1 == k)) (q :: rest) =
          q :: List.filter (fun p => !(p.1 == k)) rest := by
        rw [List.filter_cons, if_pos]
        simp [hq]
      by_cases hq' : q.1 = k'
      · rw [hfilter, getHeader_cons_self q _ k' hq', getHeader_cons_self q rest k' hq']
      · rw [hfilter, getHeader_cons_other q _ k' hq', getHeader_cons_other q rest k' hq', ih]

theorem getHeader_addBearer_other (cfg : Config) (hs : List (String × String)) (k : String)
    (hk : k ≠ "Authorization") : getHeader (addBearer cfg hs) k = getHeader hs k := by
  unfold addBearer
  by_cases hb : cfg.bearerToken = ""
  · rw [if_neg (fun hc => hc hb)]
  · rw [if_pos hb]
    exact getHeader_setHeader_other hs "Authorization" _ k hk

theorem getHeader_addBearer_self (cfg : Config) (hs : List (String × String))
    (hb : cfg.bearerToken ≠ "") :
    getHeader (addBearer cfg hs) "Authorization" = some ("Bearer " ++ cfg.bearerToken) := by
  unfold addBearer
  rw [if_pos hb]
  exact getHeader_setHeader_self hs "Authorization" _

theorem verifyToken_eq_of_decode (cfg : Config) (env : JwtEnv) (token : String)
    (d : DecodedJwt) (h : env.decode token = some d) :
    verifyToken cfg env token =
      (match env.resolveKey d.kid with
       | none => none
       | some _ =>
         if d.alg = "RS256" ∧ d.sigValid = true ∧ d.payload.iss = expectedIssuer cfg ∧
             expNotLapsed env.now d.payload.exp = true then
           some d.payload
         else none) := by
  unfold verifyToken
  rw [h]

theorem verifyToken_decode_none (cfg : Config) (env : JwtEnv) (token : String)
    (h : env.decode token = none) : verifyToken cfg env token = none := by
  unfold verifyToken
  rw [h]

theorem verifyToken_key_none (cfg : Config) (env : JwtEnv) (token : String)
    (d : DecodedJwt) (h : env.decode token = some d)
    (hk : env.resolveKey d.kid = none) : verifyToken cfg env token = none := by
  rw [verifyToken_eq_of_decode cfg env token d h, hk]

theorem verifyToken_full (cfg : Config) (env : JwtEnv) (token : String)
    (d : DecodedJwt) (key : String) (h : env.decode token = some d)
    (hk : env.resolveKey d.kid = some key) :
    verifyToken cfg env token =
      if d.alg = "RS256" ∧ d.sigValid = true ∧ d.payload.iss = expectedIssuer cfg ∧
          expNotLapsed env.now d.payload.exp = true then
        some d.payload
      else none := by
  rw [verifyToken_eq_of_decode cfg env token d h, hk]

/-- C3: a bearer credential validates successfully exactly when it
decodes, its signing key resolves, its header algorithm is the string
RS256 (so an alg of none, or any other algorithm, is rejected), its
signature verifies, its issuer claim equals the configured expected
issuer string exactly, and its expiry has not lapsed; on success the
full verified claim set is returned, and on any failure the result is
none, never a partial claim set. -/
theorem c3_verifyToken_characterization (cfg : Config) (env : JwtEnv) (token : String)
    (c : TokenClaims) :
    verifyToken cfg env token = some c ↔
      ∃ d : DecodedJwt, env.decode token = some d ∧
        (env.resolveKey d.kid).isSome = true ∧
        d.alg = "RS256" ∧ d.sigValid = true ∧
        d.payload.iss = expectedIssuer cfg ∧
        expNotLapsed env.now d.payload.exp = true ∧
        c = d.payload := by
  constructor
  · intro h
    cases hd : env.decode token with
    | none =>
      rw [verifyToken_decode_none cfg env token hd] at h
      exact absurd h (by simp)
    | some d =>
      cases hk : env.resolveKey d.kid with
      | none =>
        rw [verifyToken_key_none cfg env token d hd hk] at h
        exact absurd h (by simp)
      | some key =>
        rw [verifyToken_full cfg env token d key hd hk] at h
        by_cases hcond : d.alg = "RS256" ∧ d.sigValid = true ∧
            d.payload.iss = expectedIssuer cfg ∧ expNotLapsed env.now d.payload.exp = true
        · rw [if_pos hcond] at h
          injection h with h
          exact ⟨d, rfl, by rw [hk]; rfl, hcond.1, hcond.2.1, hcond.2.2.1, hcond.2.2.2,
            h.symm⟩
        · rw [if_neg hcond] at h
          exact absurd h (by simp)
  · rintro ⟨d, hd, hres, halg, hsig, hiss, hexp, hc⟩
    obtain ⟨key, hk⟩ := Option.isSome_iff_exists.mp hres
    rw [verifyToken_full cfg env token d key hd hk, if_pos ⟨halg, hsig, hiss, hexp⟩, hc]

/-- C9: the authentication bypass defaults to off. When the
disable-authentication value is exactly the string true the gate admits
unconditionally; when it is unset or anything else, the gate never
bypasses, and a request with no valid bearer credential and no matching
shared secret is always denied. -/
theorem c9_bypass_default_off (cfg : Config) (env : JwtEnv) (req : Request) :
    (cfg.disableAuth = some "true" → authorize cfg env req = .admitBypass) ∧
    (cfg.disableAuth ≠ some "true" → ¬ authorize cfg env req = .admitBypass) ∧
    (cfg.disableAuth ≠ some "true" →
      (∀ s, getHeader req.headers "authorization" = some s →
        strStartsWith s "Bearer " = true → verifyToken cfg env (strDrop s 7) = none) →
      presentedApiKey req ≠ some (expectedApiKey cfg) →
      (authorize cfg env req = .denyInvalidToken ∨
        authorize cfg env req = .denyUnauthorized)) := by
  refine ⟨?_, ?_, ?_⟩
  · intro h
    unfold authorize
    rw [if_pos h]
  · intro h
    unfold authorize
    rw [if_neg h]
    split
    · split
      · split
        · intro hcon; exact AuthDecision.noConfusion hcon
        · intro hcon; exact AuthDecision.noConfusion hcon
      · split
        · intro hcon; exact AuthDecision.noConfusion hcon
        · intro hcon; exact AuthDecision.noConfusion hcon
    · split
      · intro hcon; exact AuthDecision.noConfusion hcon
      · intro hcon; exact AuthDecision.noConfusion hcon
  · intro h htok hapi
    unfold authorize
    rw [if_neg h]
    split
    · rename_i s hgh
      by_cases hbw : strStartsWith s "Bearer " = true
      · rw [if_pos hbw, htok s hgh hbw]
        exact Or.inl rfl
      · rw [if_neg hbw, if_neg hapi]
        exact Or.inr rfl
    · rw [if_neg hapi]
      exact Or.inr rfl

/-- C9 witness: with the default (unset) configuration a credential-less
request is denied, and with the exact enabling value it is admitted
unconditionally. -/
theorem c9_bypass_default_off_witness :
    authorize bypassConfig nullJwtEnv c4NoCredReq = .admitBypass ∧
    (authorize defaultConfig nullJwtEnv c4NoCredReq = .denyInvalidToken ∨
      authorize defaultConfig nullJwtEnv c4NoCredReq = .denyUnauthorized) :=
  ⟨(c9_bypass_default_off bypassConfig nullJwtEnv c4NoCredReq).1 (by decide),
    (c9_bypass_default_off defaultConfig nullJwtEnv c4NoCredReq).2.2 (by decide)
      (fun s hs _ => absurd hs (by exact fun hc => Option.noConfusion hc))
      (by decide)⟩

/-- C7: with authentication enabled and no bearer credential presented,
a shared-secret value taken from the dedicated x-api-key header or the
api_key query parameter admits the request (identity api-key) exactly
when it equals the configured secret, and a present but non-matching
value is denied with reason unauthorized. -/
theorem c7_api_key_admission (cfg : Config) (env : JwtEnv) (req : Request)
    (hd : cfg.disableAuth ≠ some "true")
    (hnb : ∀ s, getHeader req.headers "authorization" = some s →
      strStartsWith s "Bearer " = false) :
    (presentedApiKey req = some (expectedApiKey cfg) →
      authorize cfg env req = .admitApiKey) ∧
    (∀ v, presentedApiKey req = some v → v ≠ expectedApiKey cfg →
      authorize cfg env req = .denyUnauthorized) := by
  constructor
  · intro hkey
    unfold authorize
    rw [if_neg hd]
    split
    · rename_i s hgh
      rw [if_neg (by rw [hnb s hgh]; exact Bool.false_ne_true), if_pos hkey]
    · rw [if_pos hkey]
  · intro v hv hne
    have hkey : ¬ presentedApiKey req = some (expectedApiKey cfg) := by
      rw [hv]
      intro hc
      injection hc with hc
      exact hne hc
    unfold authorize
    rw [if_neg hd]
    split
    · rename_i s hgh
      rw [if_neg (by rw [hnb s hgh]; exact Bool.false_ne_true), if_neg hkey]
    · rw [if_neg hkey]

/-- C7 witness: the matching secret in the dedicated header admits, and
a non-matching secret in the query parameter is denied unauthorized. -/
theorem c7_api_key_admission_witness :
    authorize defaultConfig nullJwtEnv c7GoodReq = .admitApiKey ∧
    authorize defaultConfig nullJwtEnv c7BadReq = .denyUnauthorized :=
  ⟨(c7_api_key_admission defaultConfig nullJwtEnv c7GoodReq (by decide)
      (fun s hs => absurd hs (by exact fun hc => Option.noConfusion hc))).1 (by decide),
    (c7_api_key_admission defaultConfig nullJwtEnv c7BadReq (by decide)
      (fun s hs => absurd hs (by exact fun hc => Option.noConfusion hc))).2
      "wrong" (by decide) (by decide)⟩

/-- C4: on the primary endpoint, a request whose bearer credential
fails validation is answered 401 with the full challenge header
(realm, error invalid_token, error description) and is not forwarded;
a request with neither a bearer credential nor a matching shared
secret is answered 401 with the bare realm-only challenge header and
the unauthorized error code, and is not forwarded. -/
theorem c4_auth_failure_responses (cfg : Config) (env : JwtEnv)
    (up : UpstreamRequest → UpstreamResult) (req : Request) (ah : String) :
    (cfg.disableAuth ≠ some "true" →
      getHeader req.headers "authorization" = some ah →
      strStartsWith ah "Bearer " = true →
      verifyToken cfg env (strDrop ah 7) = none →
      handleMcp cfg env up req = (invalidTokenResponse, none)) ∧
    (cfg.disableAuth ≠ some "true" →
      (∀ s, getHeader req.headers "authorization" = some s →
        strStartsWith s "Bearer " = false) →
      presentedApiKey req ≠ some (expectedApiKey cfg) →
      handleMcp cfg env up req = (unauthorizedResponse, none)) := by
  constructor
  · intro hd hah hbw htok
    have hauth : authorize cfg env req = .denyInvalidToken := by
      unfold authorize
      rw [if_neg hd]
      split
      · rename_i s hgh
        rw [hgh] at hah
        have hs : s = ah := by injection hah
        subst hs
        rw [if_pos hbw, htok]
      · rename_i hgh
        rw [hgh] at hah
        exact absurd hah (by exact fun hc => Option.noConfusion hc)
    unfold handleMcp
    rw [hauth]
  · intro hd hnb hkey
    have hauth : authorize cfg env req = .denyUnauthorized := by
      unfold authorize
      rw [if_neg hd]
      split
      · rename_i s hgh
        rw [if_neg (by rw [hnb s hgh]; exact Bool.false_ne_true), if_neg hkey]
      · rw [if_neg hkey]
    unfold handleMcp
    rw [hauth]

/-- C4 witness: a request with an invalid bearer token gets the full
challenge; a credential-less request gets the bare challenge. -/
theorem c4_auth_failure_responses_witness :
    handleMcp defaultConfig nullJwtEnv okUpstream c4TokenReq = (invalidTokenResponse, none) ∧
    handleMcp defaultConfig nullJwtEnv okUpstream c4NoCredReq = (unauthorizedResponse, none) :=
  ⟨(c4_auth_failure_responses defaultConfig nullJwtEnv okUpstream c4TokenReq
      "Bearer bad-token").1 (by decide) (by decide) (by decide) rfl,
    (c4_auth_failure_responses defaultConfig nullJwtEnv okUpstream c4NoCredReq "").2
      (by decide)
      (fun s hs => absurd hs (by exact fun hc => Option.noConfusion hc))
      (by decide)⟩

theorem authDecision_not_deny (a : AuthDecision) (h1 : ¬ a = .denyInvalidToken)
    (h2 : ¬ a = .denyUnauthorized) :
    a = .admitBypass ∨ (∃ c, a = .admitToken c) ∨ a = .admitApiKey := by
  cases a with
  | admitBypass => exact Or.inl rfl
  | admitToken c => exact Or.inr (Or.inl ⟨c, rfl⟩)
  | admitApiKey => exact Or.inr (Or.inr rfl)
  | denyInvalidToken => exact absurd rfl h1
  | denyUnauthorized => exact absurd rfl h2

theorem handleMcp_of_not_denied (cfg : Config) (env : JwtEnv)
    (up : UpstreamRequest → UpstreamResult) (req : Request)
    (h1 : ¬ authorize cfg env req = .denyInvalidToken)
    (h2 : ¬ authorize cfg env req = .denyUnauthorized) :
    handleMcp cfg env up req = handleMcpCore cfg up req := by
  unfold handleMcp
  rcases authDecision_not_deny _ h1 h2 with h | ⟨c, h⟩ | h <;> rw [h]

theorem handleMcpCore_post (cfg : Config) (up : UpstreamRequest → UpstreamResult)
    (req : Request) (hm : req.method = "POST") :
    handleMcpCore cfg up req =
      if acceptIncludesES req = true ∧ optTruthy req.querySessionId = false then
        (sseFallbackResponse, none)
      else
        (mcpPostRespond req (up (mcpPostUpstreamReq cfg req)),
          some (mcpPostUpstreamReq cfg req)) := by
  unfold handleMcpCore
  rw [if_neg (by intro hc; rw [hm] at hc; exact absurd hc.1 (by decide)), if_pos hm]

/-- C5: an admitted POST to the primary endpoint whose Accept header
includes the streaming media type and which carries no sessionId query
parameter is answered 405 with exactly the transport-fallback body
(error method_not_allowed, message Use GET for SSE connection), and no
upstream call is made. -/
theorem c5_post_stream_probe_405 (cfg : Config) (env : JwtEnv)
    (up : UpstreamRequest → UpstreamResult) (req : Request)
    (h1 : ¬ authorize cfg env req = .denyInvalidToken)
    (h2 : ¬ authorize cfg env req = .denyUnauthorized)
    (hm : req.method = "POST")
    (hacc : acceptIncludesES req = true)
    (hsid : req.querySessionId = none) :
    handleMcp cfg env up req = (sseFallbackResponse, none) := by
  rw [handleMcp_of_not_denied cfg env up req h1 h2, handleMcpCore_post cfg up req hm,
    if_pos ⟨hacc, by rw [hsid]; rfl⟩]

/-- C5 witness: the concrete initialization probe is answered 405 with
the fallback body and no upstream call. -/
theorem c5_post_stream_probe_405_witness :
    handleMcp bypassConfig nullJwtEnv okUpstream c5Req = (sseFallbackResponse, none) :=
  c5_post_stream_probe_405 bypassConfig nullJwtEnv okUpstream c5Req
    (by decide) (by decide) (by decide) (by decide) (by decide)

/-- C6: an admitted POST to the primary endpoint carrying a truthy
sessionId rewrites the streaming-endpoint segment of the configured
backend URL to the companion messages form with the session identifier
appended as a query parameter, forwards the JSON body, and — when the
Accept header does not include the streaming media type or the
upstream content type is not a stream — returns the backend body
verbatim as a single buffered 200 payload. -/
theorem c6_session_rewrite_buffered (cfg : Config) (env : JwtEnv)
    (up : UpstreamRequest → UpstreamResult) (req : Request) (sid : String)
    (st : Nat) (ct : Option String) (d : String)
    (h1 : ¬ authorize cfg env req = .denyInvalidToken)
    (h2 : ¬ authorize cfg env req = .denyUnauthorized)
    (hm : req.method = "POST")
    (hsid : req.querySessionId = some sid) (hs : sid ≠ "")
    (hsse : strContains cfg.mcpUrl "/sse" = true)
    (hok : up (mcpPostUpstreamReq cfg req) = .ok st ct d)
    (hbuf : acceptIncludesES req = false ∨ optContainsES ct = false) :
    (∃ a b : List Char,
      cfg.mcpUrl.data = a ++ "/sse".data ++ b ∧
      (mcpPostUpstreamReq cfg req).url.data =
        a ++ ("/messages?sessionId=" ++ sid).data ++ b) ∧
    (mcpPostUpstreamReq cfg req).data = req.body ∧
    handleMcp cfg env up req =
      ({ status := 200, wwwAuthenticate := none, body := .upstreamData d },
        some (mcpPostUpstreamReq cfg req)) := by
  have htr : optTruthy req.querySessionId = true := by
    rw [hsid]
    exact decide_eq_true hs
  have hurl : (mcpPostUpstreamReq cfg req).url =
      replaceFirst cfg.mcpUrl "/sse" ("/messages?sessionId=" ++ sid) := by
    show mcpPostUrl cfg req.querySessionId = _
    unfold mcpPostUrl
    rw [if_pos htr, hsid]
    rfl
  refine ⟨?_, rfl, ?_⟩
  · obtain ⟨a, b, hdecomp, hrep⟩ :=
      replaceFirst_decomp cfg.mcpUrl "/sse" ("/messages?sessionId=" ++ sid) hsse
    exact ⟨a, b, hdecomp, by rw [hurl]; exact hrep⟩
  · rw [handleMcp_of_not_denied cfg env up req h1 h2, handleMcpCore_post cfg up req hm,
      if_neg (by intro hc; rw [htr] at hc; exact Bool.noConfusion hc.2), hok]
    simp only [mcpPostRespond]
    rw [if_neg (by
      intro hc
      rcases hbuf with hb | hb
      · rw [hb] at hc
        exact Bool.noConfusion hc.1
      · rw [hb] at hc
        exact Bool.noConfusion hc.2)]

/-- C6 witness: with a streaming-endpoint backend URL, the concrete
session POST is forwarded to the rewritten messages URL and the
backend JSON body is returned buffered. -/
theorem c6_session_rewrite_buffered_witness :
    (∃ a b : List Char,
      sseBypassConfig.mcpUrl.data = a ++ "/sse".data ++ b ∧
      (mcpPostUpstreamReq sseBypassConfig c6Req).url.data =
        a ++ ("/messages?sessionId=" ++ "abc").data ++ b) ∧
    (mcpPostUpstreamReq sseBypassConfig c6Req).data = c6Req.body ∧
    handleMcp sseBypassConfig nullJwtEnv okUpstream c6Req =
      ({ status := 200, wwwAuthenticate := none, body := .upstreamData "backend-response" },
        some (mcpPostUpstreamReq sseBypassConfig c6Req)) :=
  c6_session_rewrite_buffered sseBypassConfig nullJwtEnv okUpstream c6Req "abc"
    200 (some "application/json") "backend-response"
    (by decide) (by decide) (by decide) (by decide) (by decide) (by decide) rfl
    (Or.inl (by decide))

/-- C10: the Call-With-Session rewrite is a textual first-occurrence
substitution: when the configured backend URL does not contain the
substring /sse (as with the default webhook-style URL), an admitted
POST carrying a truthy sessionId is forwarded to the unmodified
backend URL — the session identifier is silently dropped rather than
appended as a query parameter. -/
theorem c10_rewrite_textual_first_occurrence (cfg : Config) (env : JwtEnv)
    (up : UpstreamRequest → UpstreamResult) (req : Request) (sid : String)
    (h1 : ¬ authorize cfg env req = .denyInvalidToken)
    (h2 : ¬ authorize cfg env req = .denyUnauthorized)
    (hm : req.method = "POST")
    (hsid : req.querySessionId = some sid) (hs : sid ≠ "")
    (hnos : strContains cfg.mcpUrl "/sse" = false) :
    (mcpPostUpstreamReq cfg req).url = cfg.mcpUrl ∧
    (handleMcp cfg env up req).2 = some (mcpPostUpstreamReq cfg req) := by
  have htr : optTruthy req.querySessionId = true := by
    rw [hsid]
    exact decide_eq_true hs
  constructor
  · show mcpPostUrl cfg req.querySessionId = cfg.mcpUrl
    unfold mcpPostUrl
    rw [if_pos htr]
    exact replaceFirst_of_not_contains cfg.mcpUrl "/sse" _ hnos
  · rw [handleMcp_of_not_denied cfg env up req h1 h2, handleMcpCore_post cfg up req hm,
      if_neg (by intro hc; rw [htr] at hc; exact Bool.noConfusion hc.2)]

/-- C10 witness: with the default webhook-style backend URL, the
concrete session POST goes to the unmodified URL. -/
theorem c10_rewrite_textual_first_occurrence_witness :
    (mcpPostUpstreamReq bypassConfig c6Req).url = bypassConfig.mcpUrl ∧
    (handleMcp bypassConfig nullJwtEnv okUpstream c6Req).2 =
      some (mcpPostUpstreamReq bypassConfig c6Req) :=
  c10_rewrite_textual_first_occurrence bypassConfig nullJwtEnv okUpstream c6Req "abc"
    (by decide) (by decide) (by decide) (by decide) (by decide) (by decide)

/-- C2 counterexample: a concrete sub-path call with Accept
text/event-stream whose upstream call is rejected with status 404 is
answered with the raw 404, not with the 405 transport fallback,
refuting the claim as stated for Sub-path Calls. -/
theorem c2_counterexample_subpath_404 :
    acceptIncludesES c2StarReq = true ∧
    upstream404 (mcpStarUpstreamReq defaultConfig c2StarReq) =
      .httpError 404 "" "Request failed with status code 404" ∧
    (handleMcpStar defaultConfig upstream404 c2StarReq).1.status = 404 ∧
    ¬ (handleMcpStar defaultConfig upstream404 c2StarReq).1.status = 405 := by
  refine ⟨by decide, rfl, by decide, by decide⟩

/-- C2 (amended): the 404-to-405 transport-fallback remap applies to
Call-With-Session requests on the primary endpoint — there an upstream
404 with a streaming Accept yields the 405 fallback response. A
Sub-path Call is not remapped: its handler returns the upstream 404
status (with the proxy error body) even when the Accept header
includes the streaming media type. -/
theorem c2_fallback_remap_amended (cfg : Config) (env : JwtEnv)
    (up : UpstreamRequest → UpstreamResult) (req req2 : Request)
    (d1 m1 d2 m2 : String)
    (h1 : ¬ authorize cfg env req = .denyInvalidToken)
    (h2 : ¬ authorize cfg env req = .denyUnauthorized)
    (hm : req.method = "POST")
    (hsid : optTruthy req.querySessionId = true)
    (hacc : acceptIncludesES req = true)
    (hup1 : up (mcpPostUpstreamReq cfg req) = .httpError 404 d1 m1)
    (hup2 : up (mcpStarUpstreamReq cfg req2) = .httpError 404 d2 m2) :
    (handleMcp cfg env up req).1 = sseFallbackResponse ∧
    (handleMcpStar cfg up req2).1.status = 404 := by
  constructor
  · rw [handleMcp_of_not_denied cfg env up req h1 h2, handleMcpCore_post cfg up req hm,
      if_neg (by intro hc; rw [hsid] at hc; exact Bool.noConfusion hc.2), hup1]
    show mcpPostRespond req (.httpError 404 d1 m1) = _
    simp only [mcpPostRespond]
    rw [if_pos ⟨trivial, hacc⟩]
  · show (mcpStarRespond req2 (up (mcpStarUpstreamReq cfg req2))).status = 404
    rw [hup2]
    simp only [mcpStarRespond]
    rfl

/-- C2 amended witness: the concrete primary-endpoint session call is
remapped to 405, while the concrete sub-path call surfaces the 404. -/
theorem c2_fallback_remap_amended_witness :
    (handleMcp bypassConfig nullJwtEnv upstream404 c2PrimaryReq).1 = sseFallbackResponse ∧
    (handleMcpStar bypassConfig upstream404 c2StarReq).1.status = 404 :=
  c2_fallback_remap_amended bypassConfig nullJwtEnv upstream404 c2PrimaryReq c2StarReq
    "" "Request failed with status code 404" "" "Request failed with status code 404"
    (by decide) (by decide) (by decide) (by decide) (by decide) rfl rfl

/-- C8: a Sub-path Call is forwarded to the backend host and scheme
with the request's path and query string preserved; every original
header except host, content-length and the injected Authorization is
forwarded unchanged, the host header is overridden to the backend
host, content-length is removed, the backend bearer token is injected
when configured, and on the buffered (non-streaming) path the upstream
status code and body are relayed. -/
theorem c8_subpath_proxy (cfg : Config) (up : UpstreamRequest → UpstreamResult)
    (req : Request) (rest : String) (st : Nat) (ct : Option String) (d : String)
    (hpath : req.path = "/mcp" ++ rest)
    (hacc : ¬ getHeader req.headers "accept" = some "text/event-stream")
    (hok : up (mcpStarUpstreamReq cfg req) = .ok st ct d) :
    (mcpStarUpstreamReq cfg req).url =
      urlProtocol cfg.mcpUrl ++ "//" ++ urlHost cfg.mcpUrl ++ req.path ++
        querySuffix req.url ∧
    (mcpStarUpstreamReq cfg req).method = req.method ∧
    (mcpStarUpstreamReq cfg req).data = req.body ∧
    (∀ k, ¬ k = "host" → ¬ k = "content-length" → ¬ k = "Authorization" →
      getHeader (mcpStarUpstreamReq cfg req).headers k = getHeader req.headers k) ∧
    getHeader (mcpStarUpstreamReq cfg req).headers "host" = some (urlHost cfg.mcpUrl) ∧
    getHeader (mcpStarUpstreamReq cfg req).headers "content-length" = none ∧
    (cfg.bearerToken ≠ "" →
      getHeader (mcpStarUpstreamReq cfg req).headers "Authorization" =
        some ("Bearer " ++ cfg.bearerToken)) ∧
    handleMcpStar cfg up req =
      ({ status := st, wwwAuthenticate := none, body := .upstreamData d },
        some (mcpStarUpstreamReq cfg req)) := by
  refine ⟨?_, rfl, rfl, ?_, ?_, ?_, ?_, ?_⟩
  · show mcpStarUrl cfg req = _
    unfold mcpStarUrl
    rw [hpath, replaceFirst_prefix_erase]
    apply String.ext
    simp [String.data_append, List.append_assoc]
  · intro k hk1 hk2 hk3
    show getHeader (mcpStarHeaders cfg req) k = getHeader req.headers k
    unfold mcpStarHeaders
    rw [getHeader_addBearer_other cfg _ k hk3,
      getHeader_removeHeader_other "content-length" k hk2 _,
      getHeader_setHeader_other req.headers "host" _ k hk1]
  · show getHeader (mcpStarHeaders cfg req) "host" = _
    unfold mcpStarHeaders
    rw [getHeader_addBearer_other cfg _ "host" (by decide),
      getHeader_removeHeader_other "content-length" "host" (by decide) _,
      getHeader_setHeader_self req.headers "host" _]
  · show getHeader (mcpStarHeaders cfg req) "content-length" = none
    unfold mcpStarHeaders
    rw [getHeader_addBearer_other cfg _ "content-length" (by decide),
      getHeader_removeHeader_self "content-length" _]
  · intro hb
    show getHeader (mcpStarHeaders cfg req) "Authorization" = _
    unfold mcpStarHeaders
    exact getHeader_addBearer_self cfg _ hb
  · unfold handleMcpStar
    rw [hok]
    simp only [mcpStarRespond]
    rw [if_neg hacc]

/-- C8 witness: the concrete sub-path call forwards the custom header,
overrides host, drops content-length, injects the backend token, and
preserves the upstream 207 status on the buffered path. -/
theorem c8_subpath_proxy_witness :
    getHeader (mcpStarUpstreamReq c8Config c8Req).headers "x-custom" = some "1" ∧
    getHeader (mcpStarUpstreamReq c8Config c8Req).headers "host" =
      some (urlHost c8Config.mcpUrl) ∧
    getHeader (mcpStarUpstreamReq c8Config c8Req).headers "content-length" = none ∧
    getHeader (mcpStarUpstreamReq c8Config c8Req).headers "Authorization" =
      some "Bearer n8ntok" ∧
    (handleMcpStar c8Config c8Up c8Req).1.status = 207 := by
  have h := c8_subpath_proxy c8Config c8Up c8Req "/tools/x" 207 (some "application/json")
    "subpath-response" (by decide) (by decide) rfl
  refine ⟨?_, h.2.2.2.2.1, h.2.2.2.2.2.1, ?_, ?_⟩
  · rw [h.2.2.2.1 "x-custom" (by decide) (by decide) (by decide)]
    decide
  · rw [h.2.2.2.2.2.2.1 (by decide)]
    decide
  · rw [h.2.2.2.2.2.2.2]

/-- C1: the code violates the claim — an inbound POST to /mcp/messages
and an inbound request to a sub-path under /mcp/ are routed to
handlers that perform no admission check at all: two concrete
credential-less requests, which the gate itself would deny with
reason unauthorized, are nevertheless forwarded to the backend and
answered 200 with the backend body, never 401. -/
theorem c1_subpath_auth_bypass :
    authorize defaultConfig nullJwtEnv c1MessagesReq = .denyUnauthorized ∧
    authorize defaultConfig nullJwtEnv c1StarReq = .denyUnauthorized ∧
    dispatch defaultConfig nullJwtEnv okUpstream c1MessagesReq =
      some ({ status := 200, wwwAuthenticate := none
              body := .upstreamData "backend-response" },
        some (mcpMessagesUpstreamReq defaultConfig c1MessagesReq)) ∧
    dispatch defaultConfig nullJwtEnv okUpstream c1StarReq =
      some ({ status := 200, wwwAuthenticate := none
              body := .upstreamData "backend-response" },
        some (mcpStarUpstreamReq defaultConfig c1StarReq)) := by
  refine ⟨by decide, by decide, by decide, by decide⟩
